import Mathlib

/-!
Verification development for the AuthBox kiosk frontend
(`frontend/src/lib/store.js`, `frontend/src/lib/api.js`, the route
components under `frontend/src/routes/`, and the older route variants kept
alongside them).

The JavaScript is sequential glue: every component is a handful of async
handlers that read/write a shared Svelte store and issue axios requests.
We embed it shallowly:

* the shared store (`store.js`) becomes `StoreState`;
* each remote call made by a handler becomes an explicit `Except`-typed
  input to the handler's Lean function (success value = the parsed
  response body, error value = the thrown axios error), so the handler is
  a pure state-transition function;
* each `api.*` wrapper (`api.js`) becomes a function returning the
  outbound-request trace it issues, together with an (always absent)
  precondition-failure channel, so that claims about "zero outbound
  calls" are statable;
* JavaScript dynamic values stored in the record fields are `JVal`;
  JS truthiness of strings (`x || y`, `if (x)`) is modelled explicitly.

Timestamps produced by `addLog` are abstracted as a clock function
`Nat → String` giving the rendered time of the k-th `addLog` call of a
flow.
-/

namespace AuthBox

/-- A JavaScript value as stored in the dynamic fields of `authData`
(the code variously stores `null`, booleans, strings and a
`{latitude, longitude}` object in the same fields). `undefinedVal` is
JavaScript `undefined`. -/
inductive JVal where
  | null
  | undefinedVal
  | bool (b : Bool)
  | str (s : String)
  | loc (latitude longitude : Int)
deriving DecidableEq, Repr

/-- `authData` from `store.js` (plus the `senderEmail` key that
`EmailInput.svelte` adds dynamically; absence of the key is `none`).
`logId` is the server-issued session id: the current generation stores it
in `authData.logId` (`Result.svelte`, `startSession`), the previous
generation kept a separate `logId` store that `api.js` still imports; we
model the single session-id cell both read. -/
structure AuthData where
  logId : Option String
  userId : String
  timestamp : String
  fingerprint : JVal
  camera : JVal
  gps : JVal
  signature : JVal
  otpResult : JVal
  email : String
  senderEmail : Option String
deriving DecidableEq, Repr

/-- The initial `authData` object literal of `store.js`. -/
def initialAuthData : AuthData :=
  { logId := none
    userId := ""
    timestamp := ""
    fingerprint := .null
    camera := .null
    gps := .null
    signature := .null
    otpResult := .null
    email := ""
    senderEmail := none }

/-- `sensorStatus` from `store.js`. -/
structure SensorStatus where
  fingerprint : Bool
  camera : Bool
  gps : Bool
  rtc : Bool
  signature : Bool
  oled : Bool
deriving DecidableEq, Repr

/-- The initial `sensorStatus` object literal of `store.js`: everything
starts unreachable. -/
def initialSensorStatus : SensorStatus :=
  { fingerprint := false, camera := false, gps := false
    rtc := false, signature := false, oled := false }

/-- `otpData` from `store.js`. -/
structure OtpData where
  question : String
  options : List String
  newsTitle : String
  selectedAnswer : Option String
deriving DecidableEq, Repr

/-- The initial `otpData` object literal of `store.js`. -/
def initialOtpData : OtpData :=
  { question := "", options := [], newsTitle := "", selectedAnswer := none }

/-- The whole shared Svelte store of `store.js`: `currentStep`,
`authData`, `sensorStatus`, `otpData`, `logs`. -/
structure StoreState where
  currentStep : Nat
  authData : AuthData
  sensorStatus : SensorStatus
  otpData : OtpData
  logs : List String
deriving DecidableEq, Repr

/-- The store as created by `store.js` at module load. -/
def initialStore : StoreState :=
  { currentStep := 0
    authData := initialAuthData
    sensorStatus := initialSensorStatus
    otpData := initialOtpData
    logs := [] }

/-- One rendered log line, as produced by `addLog` in `store.js`:
`[time] message`. -/
def logLine (t msg : String) : String := "[" ++ t ++ "] " ++ msg

/-- `addLog(message)` from `store.js`, with the wall-clock reading passed
explicitly. -/
def addLog (t msg : String) (st : StoreState) : StoreState :=
  { st with logs := st.logs ++ [logLine t msg] }

/-- Render a list of messages logged consecutively, the k-th one using
clock reading `ts (base + k)`. -/
def renderLogs (ts : Nat → String) (base : Nat) : List String → List String
  | [] => []
  | m :: ms => logLine (ts base) m :: renderLogs ts (base + 1) ms

/-- Append several consecutive `addLog` calls to the store. -/
def addLogs (ts : Nat → String) (base : Nat) (msgs : List String)
    (st : StoreState) : StoreState :=
  { st with logs := st.logs ++ renderLogs ts base msgs }

/-! ## The Verification Client (`api.js`)

Each wrapper reads the session id fresh (`const currentLogId =
get(logId)`) and returns one axios request. We record the outbound
requests a call issues, and a precondition-failure channel that the
source never populates (there is no null-check anywhere in `api.js`).
JavaScript template interpolation renders a null id as the string
`"null"` in the URL. -/

/-- HTTP method of an outbound axios request. -/
inductive Method where
  | get
  | post
deriving DecidableEq, Repr

/-- One outbound HTTP request as issued by an `api.js` wrapper
(body an association list of rendered fields). -/
structure Request where
  method : Method
  url : String
  body : List (String × String)
deriving DecidableEq, Repr

/-- Result of invoking a Verification Client wrapper, up to the point
where the request leaves the client: any precondition error raised
before issuing a request, and the outbound requests issued. -/
structure ClientCall where
  precondFailure : Option String
  requests : List Request
deriving DecidableEq, Repr

/-- How a possibly-null session id renders inside a JS template literal:
`null` interpolates as the string `"null"`. -/
def jsIdStr : Option String → String
  | none => "null"
  | some s => s

namespace api

/-- `api.verifyGPS` from `api.js`. -/
def verifyGPS (currentLogId : Option String) (lat lon : Int) : ClientCall :=
  { precondFailure := none
    requests := [{ method := .post
                   url := "/api/verification/" ++ jsIdStr currentLogId ++ "/gps"
                   body := [("latitude", toString lat), ("longitude", toString lon)] }] }

/-- `api.verifyOTP` from `api.js`. -/
def verifyOTP (currentLogId : Option String) (userReporter : String) : ClientCall :=
  { precondFailure := none
    requests := [{ method := .post
                   url := "/api/verification/" ++ jsIdStr currentLogId ++ "/otp"
                   body := [("userReporter", userReporter)] }] }

/-- `api.verifyFace` from `api.js`: the body carries the image only when
one is passed (the `imageBase64 ? { image } : {}` conditional). -/
def verifyFace (currentLogId : Option String) (imageBase64 : Option String) : ClientCall :=
  { precondFailure := none
    requests := [{ method := .post
                   url := "/api/verification/" ++ jsIdStr currentLogId ++ "/face"
                   body := match imageBase64 with
                           | some img => [("image", img)]
                           | none => [] }] }

/-- `api.verifyFingerprint` from `api.js`. -/
def verifyFingerprint (currentLogId : Option String) : ClientCall :=
  { precondFailure := none
    requests := [{ method := .post
                   url := "/api/verification/" ++ jsIdStr currentLogId ++ "/fingerprint"
                   body := [] }] }

/-- `api.verifySignature` from `api.js`. -/
def verifySignature (currentLogId : Option String) (imageData : String) : ClientCall :=
  { precondFailure := none
    requests := [{ method := .post
                   url := "/api/verification/" ++ jsIdStr currentLogId ++ "/signature"
                   body := [("image", imageData)] }] }

/-- `api.sendMail` from `api.js`. -/
def sendMail (currentLogId : Option String) (senderEmail : String) : ClientCall :=
  { precondFailure := none
    requests := [{ method := .post
                   url := "/api/verification/" ++ jsIdStr currentLogId ++ "/mail"
                   body := [("senderEmail", senderEmail)] }] }

/-- `api.startVerification` from `api.js` (does not use the session id). -/
def startVerification (userId : String) : ClientCall :=
  { precondFailure := none
    requests := [{ method := .post
                   url := "/api/verification/start"
                   body := [("userId", userId)] }] }

end api

/-- Number of outbound requests a client call issues. -/
def ClientCall.outboundCount (c : ClientCall) : Nat := c.requests.length

/-- C1. The claim says every session-scoped Verification Client operation
invoked with a null session id fails with a distinguishable
`MissingSessionError`/`PreconditionError` before issuing any outbound
request (zero outbound calls). The code has no such check: `verifyGPS`
with a null id raises no precondition error and issues exactly one
outbound POST, to a URL with the string `"null"` interpolated where the
session id belongs. -/
theorem c1_counterexample :
    (api.verifyGPS none 0 0).precondFailure = none ∧
    (api.verifyGPS none 0 0).outboundCount = 1 ∧
    (api.verifyGPS none 0 0).requests =
      [{ method := .post
         url := "/api/verification/null/gps"
         body := [("latitude", "0"), ("longitude", "0")] }] := by
  refine ⟨rfl, rfl, rfl⟩

/-- C1 (amended). Each of the six session-scoped Verification Client
operations (`verifyGPS`, `verifyOTP`, `verifyFace`, `verifyFingerprint`,
`verifySignature`, `sendMail`) reads the session id fresh at call time
and unconditionally issues exactly one outbound POST whose URL embeds
that id (rendered `"null"` when the id is null); no
MissingSessionError / PreconditionError is ever raised, for any id. -/
theorem c1_amended (currentLogId : Option String) (lat lon : Int)
    (userReporter : String) (imageBase64 : Option String)
    (imageData senderEmail : String) :
    ((api.verifyGPS currentLogId lat lon).precondFailure = none ∧
      (api.verifyGPS currentLogId lat lon).requests.map Request.url =
        ["/api/verification/" ++ jsIdStr currentLogId ++ "/gps"]) ∧
    ((api.verifyOTP currentLogId userReporter).precondFailure = none ∧
      (api.verifyOTP currentLogId userReporter).requests.map Request.url =
        ["/api/verification/" ++ jsIdStr currentLogId ++ "/otp"]) ∧
    ((api.verifyFace currentLogId imageBase64).precondFailure = none ∧
      (api.verifyFace currentLogId imageBase64).requests.map Request.url =
        ["/api/verification/" ++ jsIdStr currentLogId ++ "/face"]) ∧
    ((api.verifyFingerprint currentLogId).precondFailure = none ∧
      (api.verifyFingerprint currentLogId).requests.map Request.url =
        ["/api/verification/" ++ jsIdStr currentLogId ++ "/fingerprint"]) ∧
    ((api.verifySignature currentLogId imageData).precondFailure = none ∧
      (api.verifySignature currentLogId imageData).requests.map Request.url =
        ["/api/verification/" ++ jsIdStr currentLogId ++ "/signature"]) ∧
    ((api.sendMail currentLogId senderEmail).precondFailure = none ∧
      (api.sendMail currentLogId senderEmail).requests.map Request.url =
        ["/api/verification/" ++ jsIdStr currentLogId ++ "/mail"]) := by
  refine ⟨⟨rfl, rfl⟩, ⟨rfl, rfl⟩, ⟨rfl, rfl⟩, ⟨rfl, rfl⟩, ⟨rfl, rfl⟩, rfl, rfl⟩

/-! ## JS truthiness helpers -/

/-- JS `a || fallback` where `a` is a possibly-absent string field:
a missing or empty string is falsy and yields the fallback. -/
def jsOrStr (a : Option String) (fallback : String) : String :=
  match a with
  | some s => if s = "" then fallback else s
  | none => fallback

/-- JS truthiness of a possibly-absent string (`if (x)`): true exactly
when present and non-empty. -/
def jsTruthy : Option String → Bool
  | some s => s ≠ ""
  | none => false

/-- Drop leading whitespace characters. -/
def dropWhileWs : List Char → List Char
  | [] => []
  | c :: cs => if c.isWhitespace then dropWhileWs cs else c :: cs

/-- JS `String.prototype.trim()`: strip leading and trailing
whitespace. -/
def jsTrim (s : String) : String :=
  String.mk ((dropWhileWs ((dropWhileWs s.data).reverse)).reverse)

/-- The axios error thrown by a failed request: either the collaborator
answered non-2xx (with an HTTP status and an optional `detail` field in
the JSON body), or the request never got a response (transport failure,
`e.response` undefined). -/
inductive AxiosError where
  | response (status : Nat) (detail : Option String)
  | network
deriving DecidableEq, Repr

/-- `e.response?.data?.detail` of an axios error: absent on transport
failure. -/
def AxiosError.detailField : AxiosError → Option String
  | .response _ d => d
  | .network => none

/-! ## Checklist / Readiness Gate (`Checklist.svelte`) -/

/-- Parsed body of a 2xx `GET /api/sensors/status` response. -/
structure SensorsStatusResp where
  rtc : Bool
  fingerprint : Bool
  camera : Bool
  gps : Bool
  signature : Bool
deriving DecidableEq, Repr

/-- Component-local state of `Checklist.svelte` after its `onMount`
handler finished. -/
structure ChecklistState where
  checking : Bool
  error : Option String
  hasFailed : Bool
deriving DecidableEq, Repr

/-- The `onMount` handler of `Checklist.svelte`. The `Except` input is
the outcome of `fetch("/api/sensors/status")`: `.ok` is a 2xx response
with parsed body; `.error` covers both a transport failure and a
non-2xx response (`!response.ok` throws into the same `catch`). On
success it copies the five flags into `sensorStatus` and computes
`hasFailed = !rtc || !fingerprint || !camera || !gps`; the `catch`
branch surfaces a connectivity error and forces `hasFailed`, touching
neither `sensorStatus` nor anything else in the store. -/
def checklistOnMount (resp : Except Unit SensorsStatusResp)
    (st : StoreState) : StoreState × ChecklistState :=
  match resp with
  | .ok s =>
      let store :=
        { st with sensorStatus :=
            { st.sensorStatus with
                rtc := s.rtc, fingerprint := s.fingerprint
                camera := s.camera, gps := s.gps, signature := s.signature } }
      let hf := !s.rtc || !s.fingerprint || !s.camera || !s.gps
      (store,
       { checking := false
         error := if hf
                  then some "One or more sensors failed. Please check connections."
                  else none
         hasFailed := hf })
  | .error _ =>
      (st,
       { checking := false
         error := some "Failed to connect to sensors. Ensure backend is running."
         hasFailed := true })

/-- The `disabled` expression of the Continue button of
`Checklist.svelte`: `checking || hasFailed`. -/
def continueDisabled (cs : ChecklistState) : Bool := cs.checking || cs.hasFailed

/-- C2. For every successful readiness-probe response the gate computes
`hasFailed = !(rtc && fingerprint && camera && gps)` (the signature flag
is recorded into the store but does not contribute); after `onMount`
the continue button is disabled exactly when `hasFailed` holds (checking
is over, so `checking || hasFailed` reduces to `hasFailed`); and on the
probe result rtc/camera/gps/signature true, fingerprint false, the gate
has failed and continue is disabled. -/
theorem c2_readiness_gate (s : SensorsStatusResp) (st : StoreState)
    (r : Except Unit SensorsStatusResp) :
    (checklistOnMount (.ok s) st).2.hasFailed
        = !(s.rtc && s.fingerprint && s.camera && s.gps) ∧
    ((checklistOnMount (.ok s) st).1.sensorStatus.signature = s.signature) ∧
    continueDisabled (checklistOnMount r st).2
        = (checklistOnMount r st).2.hasFailed ∧
    ((checklistOnMount (.ok ⟨true, false, true, true, true⟩) st).2.hasFailed = true ∧
      continueDisabled (checklistOnMount (.ok ⟨true, false, true, true, true⟩) st).2 = true) := by
  refine ⟨?_, rfl, ?_, rfl, rfl⟩
  · obtain ⟨a, b, c, d, e⟩ := s
    cases a <;> cases b <;> cases c <;> cases d <;> rfl
  · cases r with
    | ok s => rfl
    | error e => rfl

/-! ## OTP quiz step (`AuthQuiz.svelte`) -/

/-- Parsed body of a 2xx `GET /api/otp` response (`options` and
`newsTitle` may be absent: the component applies `|| []` and `|| ""`). -/
structure OtpFetchResp where
  question : String
  options : Option (List String)
  newsTitle : Option String
deriving DecidableEq, Repr

/-- Component-local state of `AuthQuiz.svelte`. -/
structure QuizState where
  status : String
  message : String
  selected : Option String
deriving DecidableEq, Repr

/-- `loadOTPQuestion` from `AuthQuiz.svelte`. On a successful fetch it
fills `otpData` from the response; if the fetch throws it installs the
fixed fallback quiz (question, four options, newsTitle
`"(Offline Mode)"`), keeps the failure message, and ends in status
`"ready"` either way. It never touches `currentStep` or `authData`.
(Note: the current `api.js` does not define `getOTP`, so at runtime the
call itself throws and the fallback branch is always the one taken.) -/
def loadOTPQuestion (resp : Except Unit OtpFetchResp)
    (st : StoreState) (qs : QuizState) : StoreState × QuizState :=
  match resp with
  | .ok r =>
      ({ st with otpData :=
          { question := r.question
            options := r.options.getD []
            newsTitle := r.newsTitle.getD ""
            selectedAnswer := none } },
       { qs with status := "ready", message := "" })
  | .error _ =>
      ({ st with otpData :=
          { question := "What is the capital of South Korea?"
            options := ["A. Busan", "B. Seoul", "C. Incheon", "D. Daegu"]
            newsTitle := "(Offline Mode)"
            selectedAnswer := none } },
       { qs with status := "ready"
                 message := "Failed to load quiz. Using fallback question." })

/-- Parsed body of a 2xx OTP-submit response. -/
structure OtpSubmitResp where
  isCorrect : Bool
deriving DecidableEq, Repr

/-- `submitAnswer` from `AuthQuiz.svelte`: a no-op without a selection;
on a successful verify call it records `otpResult` and (after the
1.5 s timeout) advances `currentStep` to 5 (GPS); on a thrown call it
only sets the step-local error state, leaving the store untouched. -/
def submitAnswer (resp : Except Unit OtpSubmitResp)
    (st : StoreState) (qs : QuizState) : StoreState × QuizState :=
  match qs.selected with
  | none => (st, qs)
  | some _ =>
      match resp with
      | .ok r =>
          ({ st with
              authData := { st.authData with otpResult := .bool r.isCorrect }
              currentStep := 5 },
           { qs with status := "success"
                     message := if r.isCorrect then "Correct!"
                                else "Incorrect, but continuing..." })
      | .error _ =>
          (st, { qs with status := "error"
                         message := "Verification failed. Please try again." })

/-- C3. Whenever the OTP-challenge fetch fails, `loadOTPQuestion`
installs the fixed fallback challenge: question
`"What is the capital of South Korea?"`, options including
`"B. Seoul"`, newsTitle `"(Offline Mode)"` marking offline operation,
and it leaves `currentStep` (and the rest of the store outside
`otpData`) unchanged. -/
theorem c3_otp_fallback (st : StoreState) (qs : QuizState) :
    (loadOTPQuestion (.error ()) st qs).1.otpData.question
        = "What is the capital of South Korea?" ∧
    "B. Seoul" ∈ (loadOTPQuestion (.error ()) st qs).1.otpData.options ∧
    (loadOTPQuestion (.error ()) st qs).1.otpData.newsTitle = "(Offline Mode)" ∧
    (loadOTPQuestion (.error ()) st qs).2.message
        = "Failed to load quiz. Using fallback question." ∧
    (loadOTPQuestion (.error ()) st qs).1.currentStep = st.currentStep ∧
    (loadOTPQuestion (.error ()) st qs).1.authData = st.authData := by
  refine ⟨rfl, ?_, rfl, rfl, rfl, rfl⟩
  simp [loadOTPQuestion]

/-! ## Face step (`AuthCamera.svelte`) -/

/-- Component-local state of `AuthCamera.svelte`. -/
structure CameraState where
  status : String
  message : String
  capturedImage : Option String
deriving DecidableEq, Repr

/-- `verify` from `AuthCamera.svelte`: sends the captured image through
`api.verifyFace`; on success records `authData.camera = true`; on a
thrown call it displays `e.response?.data?.detail` when that is a
truthy string and the generic `"Verification failed. Try again."`
otherwise, leaving the store untouched. -/
def cameraVerify (resp : Except AxiosError Unit)
    (st : StoreState) (cs : CameraState) : StoreState × CameraState :=
  match resp with
  | .ok _ =>
      ({ st with authData := { st.authData with camera := .bool true } },
       { cs with status := "success", message := "Face verification complete!" })
  | .error e =>
      (st, { cs with status := "error"
                     message := jsOrStr e.detailField "Verification failed. Try again." })

/-! ## Fingerprint step (`AuthFingerprint.svelte`) -/

/-- Component-local state of `AuthFingerprint.svelte`. -/
structure FingerprintState where
  status : String
  message : String
deriving DecidableEq, Repr

/-- `scanAndVerify` from `AuthFingerprint.svelte` (countdown timer
elided): on success records `authData.fingerprint = true`; on a thrown
call it displays the detail-or-generic message and leaves the store
untouched. -/
def scanAndVerify (resp : Except AxiosError Unit)
    (st : StoreState) (_fs : FingerprintState) : StoreState × FingerprintState :=
  match resp with
  | .ok _ =>
      ({ st with authData := { st.authData with fingerprint := .bool true } },
       { status := "success", message := "Fingerprint verification complete!" })
  | .error e =>
      (st, { status := "error"
             message := jsOrStr e.detailField "Scan failed. Try again." })

/-! ## GPS step (`AuthGPS.svelte`) -/

/-- Parsed `data` object of a 2xx `GET /api/gps` response. -/
structure GpsResp where
  latitude : Int
  longitude : Int
deriving DecidableEq, Repr

/-- Component-local state of `AuthGPS.svelte`. -/
structure GpsState where
  status : String
  message : String
  location : Option GpsResp
deriving DecidableEq, Repr

/-- One `pollGPS` tick from `AuthGPS.svelte`: on a successful fetch it
stores the location object into `authData.gps` and flips to success; a
thrown fetch only (re)sets the waiting message while not yet successful,
touching neither the store nor the captured location. -/
def pollGPS (resp : Except Unit GpsResp)
    (st : StoreState) (gs : GpsState) : StoreState × GpsState :=
  match resp with
  | .ok r =>
      ({ st with authData := { st.authData with gps := .loc r.latitude r.longitude } },
       { status := "success"
         message := "Location: " ++ toString r.latitude ++ ", " ++ toString r.longitude
         location := some r })
  | .error _ =>
      (st, if gs.status ≠ "success"
           then { gs with message := "Waiting for GPS data..." }
           else gs)

/-! ## Consent + signature step (the newer signature route variant) -/

/-- Parsed body of a 2xx signature-verify response (`filePath` and
`path` may each be absent). -/
structure SignatureResp where
  filePath : Option String
  path : Option String
deriving DecidableEq, Repr

/-- Component-local state of the consent+signature route. -/
structure SignatureState where
  status : String
  message : String
deriving DecidableEq, Repr

/-- JS `res.data.filePath || res.data.path` as stored into
`authData.signature`: the first truthy string, else the raw second
value (`undefined` when the key is absent). -/
def filePathOrPath (filePath path : Option String) : JVal :=
  if jsTruthy filePath then .str (filePath.getD "")
  else match path with
       | some s => .str s
       | none => .undefinedVal

/-- `handleSave` from the consent+signature route variant. It reads the
session id at call time; when that id is falsy (null/absent or the
empty string) it enters UI-test mode: no request is issued, the raw
signature image is stored into `authData.signature` and the step
reports success. Otherwise it issues `api.verifySignature`; on success
it stores `filePath || path`, on a thrown call it shows the
detail-or-generic message and leaves the store untouched. Returns the
new store, the step state, and the outbound requests issued. -/
def handleSave (imageData : String) (resp : Except AxiosError SignatureResp)
    (st : StoreState) : StoreState × SignatureState × List Request :=
  if jsTruthy st.authData.logId then
    match resp with
    | .ok r =>
        ({ st with authData :=
            { st.authData with signature := filePathOrPath r.filePath r.path } },
         { status := "success", message := "서명이 저장되었습니다!" },
         (api.verifySignature st.authData.logId imageData).requests)
    | .error e =>
        (st,
         { status := "error"
           message := jsOrStr e.detailField "저장 실패. 다시 시도해주세요." },
         (api.verifySignature st.authData.logId imageData).requests)
  else
    ({ st with authData := { st.authData with signature := .str imageData } },
     { status := "success", message := "서명이 저장되었습니다! (테스트 모드)" },
     [])

/-! ## Session start (`startSession` in the current Login/Result route) -/

/-- Parsed body of a 2xx `POST /api/verification/start` response. -/
structure StartResp where
  logId : String
deriving DecidableEq, Repr

/-- Component-local state of the start screen. -/
structure StartState where
  status : String
  errorMessage : String
deriving DecidableEq, Repr

/-- `startSession` from the current start route: an all-whitespace user
id is rejected locally before any call; on a successful start call the
returned `logId` and the user id are stored and `currentStep` advances
to 1 (the Checklist / Readiness Gate); on a thrown call the store is
left untouched and the detail-or-generic error is surfaced with the
action re-enabled (status `"error"`). -/
def startSession (userId : String) (resp : Except AxiosError StartResp)
    (st : StoreState) : StoreState × StartState :=
  if jsTrim userId = "" then
    (st, { status := "idle", errorMessage := "Please enter your User ID" })
  else
    match resp with
    | .ok r =>
        ({ st with
            authData := { st.authData with logId := some r.logId, userId := userId }
            currentStep := 1 },
         { status := "loading", errorMessage := "" })
    | .error e =>
        (st, { status := "error"
               errorMessage := jsOrStr e.detailField "Failed to start verification" })

/-! ## Session reset (`resetAuthData` in `store.js`, `restart` in
`Result.svelte`) -/

/-- `resetAuthData` from `store.js`: wholesale replacement of
`authData` and `otpData` with their initial object literals and
clearing of `logs`. It does not touch `currentStep` or
`sensorStatus`. -/
def resetAuthData (st : StoreState) : StoreState :=
  { st with authData := initialAuthData, otpData := initialOtpData, logs := [] }

/-- `restart` from `Result.svelte`: `resetAuthData()` then
`$currentStep = 0`. -/
def restart (st : StoreState) : StoreState :=
  { resetAuthData st with currentStep := 0 }

/-! ## Terminal submission (`Sending.svelte`, both variants) -/

/-- Parsed body of a 2xx mail-send response. -/
structure MailResp where
  isSuccess : Bool
  targetMail : String
  message : Option String
deriving DecidableEq, Repr

/-- The seven fixed progress messages of the first Sending variant. -/
def sendingStepMsgs : List String :=
  [ "Initiating secure transfer..."
  , "Encrypting biometric data..."
  , "Connecting to verification server..."
  , "Uploading fingerprint data... OK"
  , "Uploading face data... OK"
  , "Uploading signature data... OK"
  , "Verifying transaction..." ]

/-- The messages `sendDataToServer` logs after the seven progress
messages: the mail block runs only when `authData.email` is truthy
(non-empty), its failure is swallowed with a logged line, and the
completion line is logged unconditionally. -/
def sendDataTailMsgs (email : String) (mail : Except Unit MailResp) : List String :=
  (if email ≠ "" then
      "Sending verification email..." ::
        (match mail with
         | .ok r => ["Email sent to " ++ r.targetMail ++ "... OK"]
         | .error _ => ["Email sending failed (continuing anyway)"])
    else []) ++
  ["All verification steps completed!"]

/-- `sendDataToServer` from the first Sending variant: logs the staged
progress messages, runs the optional mail send under a try/catch whose
failure is only logged, then always completes and (after the timeout)
advances `currentStep` to 9, the Result step. `authData`,
`sensorStatus` and `otpData` are never written. -/
def sendDataToServer (ts : Nat → String) (mail : Except Unit MailResp)
    (st : StoreState) : StoreState :=
  let st1 := addLogs ts 0
    (sendingStepMsgs ++ sendDataTailMsgs st.authData.email mail) st
  { st1 with currentStep := 9 }

/-- The thrown value reaching the `catch` of the second Sending variant:
its `.message` string (absent models a JS error without a message). -/
structure JsError where
  message : Option String
deriving DecidableEq, Repr

/-- `onMount` of the second Sending variant. Outcome of
`api.sendMail($authData.senderEmail)` is the `Except` input. A 2xx
response with `isSuccess` logs success and advances `currentStep` to 11
(Result); a 2xx response with `isSuccess` false is re-thrown as
`Error(message || "Email send failed")`; the catch logs
`Error: <message or "Send failed">`, surfaces the error (second
component of the result) and leaves `currentStep` and `authData`
untouched, so the flow stays on Sending offering a reload. -/
def sendingOnMount2 (ts : Nat → String) (mail : Except JsError MailResp)
    (st : StoreState) : StoreState × Option String :=
  let st1 := addLogs ts 0
    [ "Starting to send verification data..."
    , "Connecting to server..."
    , "Requesting email send..." ] st
  match mail with
  | .ok r =>
      if r.isSuccess then
        ({ addLogs ts 3
            [ "Email sent successfully: " ++ r.targetMail
            , "All verification completed!" ] st1 with currentStep := 11 },
         none)
      else
        let m := jsOrStr r.message "Email send failed"
        (addLogs ts 3 ["Error: " ++ jsOrStr (some m) "Send failed"] st1, some m)
  | .error e =>
      let m := jsOrStr e.message "Send failed"
      (addLogs ts 3 ["Error: " ++ m] st1, some (jsOrStr e.message "Send failed"))

/-! ## Concrete runs used by the counterexamples -/

/-- A constant clock for concrete runs (every `addLog` renders the same
time string). -/
def tsZero : Nat → String := fun _ => "00:00:00"

/-- The store after one full happy-path session: start, readiness probe
with every sensor reachable, fingerprint, face, quiz, GPS, signature,
terminal submission. -/
def fullSessionRun : StoreState :=
  let st1 := (startSession "user1" (.ok ⟨"log-42"⟩) initialStore).1
  let st2 := (checklistOnMount (.ok ⟨true, true, true, true, true⟩) st1).1
  let st3 := (scanAndVerify (.ok ()) st2 ⟨"idle", "Place your finger on the sensor"⟩).1
  let st4 := (cameraVerify (.ok ()) st3 ⟨"verifying", "Verifying with server...", some "img"⟩).1
  let st5 := (loadOTPQuestion (.ok ⟨"Q?", some ["A. x", "B. y"], some "News"⟩) st4
      ⟨"loading", "Loading quiz...", none⟩).1
  let st6 := (submitAnswer (.ok ⟨true⟩) st5 ⟨"ready", "", some "B"⟩).1
  let st7 := (pollGPS (.ok ⟨37, 127⟩) st6 ⟨"idle", "Waiting for GPS data...", none⟩).1
  let st8 := (handleSave "sig-png" (.ok ⟨some "/sig/1.png", none⟩) st7).1
  sendDataToServer tsZero (.ok ⟨true, "a@b.c", none⟩) st8

/-- A store about to run the second Sending variant: session id issued,
earlier records captured, sender email collected, `currentStep` on the
Sending step (10). -/
def preSendingStore : StoreState :=
  { initialStore with
      currentStep := 10
      authData :=
        { initialAuthData with
            logId := some "log-42"
            userId := "user1"
            fingerprint := .bool true
            camera := .bool true
            senderEmail := some "user@example.com" } }

/-! ## The claims -/

/-- C4. The claim says the face step's displayed error equals the
collaborator's `detail` field verbatim, falling back to a generic
message only when that field is absent. The code uses JS `||`, so an
HTTP 500 whose body carries the present-but-empty detail `""` is
displayed as the generic `"Verification failed. Try again."`, not as
the provided detail. -/
theorem c4_counterexample :
    (cameraVerify (.error (.response 500 (some "")))
        initialStore ⟨"verifying", "Verifying with server...", some "img"⟩).2.message
      = "Verification failed. Try again." ∧
    (cameraVerify (.error (.response 500 (some "")))
        initialStore ⟨"verifying", "Verifying with server...", some "img"⟩).2.message
      ≠ "" := by
  refine ⟨rfl, by decide⟩

/-- C4 (amended). On a failed face-verify call the displayed error is
the collaborator's `detail` verbatim whenever that detail is a
non-empty string, and the generic message when the detail is absent,
empty, or there was no response at all; the store (in particular
`record.camera`) is left completely unchanged by any failure; and for
an HTTP 500 carrying detail `"liveness check failed"` the display is
exactly that string. -/
theorem c4_amended (st : StoreState) (cs : CameraState) (code : Nat)
    (s : String) (e : AxiosError) (h : s ≠ "") :
    (cameraVerify (.error (.response code (some s))) st cs).2.message = s ∧
    (cameraVerify (.error (.response code (some ""))) st cs).2.message
        = "Verification failed. Try again." ∧
    (cameraVerify (.error (.response code none)) st cs).2.message
        = "Verification failed. Try again." ∧
    (cameraVerify (.error .network) st cs).2.message
        = "Verification failed. Try again." ∧
    (cameraVerify (.error e) st cs).1 = st ∧
    (cameraVerify (.error e) st cs).1.authData.camera = st.authData.camera ∧
    (cameraVerify (.error (.response 500 (some "liveness check failed"))) st cs).2.message
        = "liveness check failed" := by
  refine ⟨?_, rfl, rfl, rfl, ?_, ?_, rfl⟩
  · simp [cameraVerify, AxiosError.detailField, jsOrStr, h]
  · cases e <;> rfl
  · cases e <;> rfl

/-- C4 witness: the amended theorem evaluated at an HTTP 500 with
detail `"liveness check failed"` against the initial store. -/
theorem c4_amended_witness :
    (cameraVerify (.error (.response 500 (some "liveness check failed")))
        initialStore ⟨"verifying", "Verifying with server...", some "img"⟩).2.message
        = "liveness check failed" ∧
    (cameraVerify (.error (.response 500 (some "liveness check failed")))
        initialStore ⟨"verifying", "Verifying with server...", some "img"⟩).1
        = initialStore :=
  ⟨(c4_amended initialStore ⟨"verifying", "Verifying with server...", some "img"⟩
      500 "liveness check failed" (.response 500 (some "liveness check failed"))
      (by decide)).1,
   (c4_amended initialStore ⟨"verifying", "Verifying with server...", some "img"⟩
      500 "liveness check failed" (.response 500 (some "liveness check failed"))
      (by decide)).2.2.2.2.1⟩

/-- C5. The claim says every terminal submission run whose mail-send
call throws still reaches the terminal Result step. In the second
Sending variant a thrown mail-send lands in the catch, which logs and
surfaces the error but never advances `currentStep`: the run stays on
the Sending step (10), it does not reach Result (11). -/
theorem c5_counterexample :
    (sendingOnMount2 tsZero (.error ⟨some "Network Error"⟩) preSendingStore).1.currentStep
        = 10 ∧
    (sendingOnMount2 tsZero (.error ⟨some "Network Error"⟩) preSendingStore).1.currentStep
        ≠ 11 ∧
    (sendingOnMount2 tsZero (.error ⟨some "Network Error"⟩) preSendingStore).2
        = some "Network Error" := by
  refine ⟨rfl, by decide, rfl⟩

/-- C5 (amended). Mail failure never corrupts the session record, and
it is always logged; but the two Sending variants differ in reaching
the terminal step: in the first variant a thrown mail-send is swallowed
(failure line logged) and the flow still advances to Result (step 9)
with `authData` unchanged, while in the second variant the failure is
logged and surfaced as an error and `currentStep` is left unchanged —
the automatic transition to Result does not happen and the user must
retry. -/
theorem c5_amended (ts : Nat → String) (st : StoreState) (e : JsError)
    (h : st.authData.email ≠ "") :
    (sendDataToServer ts (.error ()) st).currentStep = 9 ∧
    logLine (ts 8) "Email sending failed (continuing anyway)"
        ∈ (sendDataToServer ts (.error ()) st).logs ∧
    (sendDataToServer ts (.error ()) st).authData = st.authData ∧
    (sendingOnMount2 ts (.error e) st).1.currentStep = st.currentStep ∧
    (sendingOnMount2 ts (.error e) st).2 = some (jsOrStr e.message "Send failed") ∧
    logLine (ts 3) ("Error: " ++ jsOrStr e.message "Send failed")
        ∈ (sendingOnMount2 ts (.error e) st).1.logs ∧
    (sendingOnMount2 ts (.error e) st).1.authData = st.authData := by
  refine ⟨rfl, ?_, rfl, rfl, rfl, ?_, rfl⟩
  · simp [sendDataToServer, addLogs, sendDataTailMsgs, sendingStepMsgs, renderLogs, h]
  · simp [sendingOnMount2, addLogs, renderLogs]

/-- C5 witness: the amended theorem evaluated on the concrete
pre-sending store with a non-empty recipient email and a thrown
mail-send on both variants. -/
theorem c5_amended_witness :
    (sendDataToServer tsZero (.error ())
        { preSendingStore with authData :=
            { preSendingStore.authData with email := "user@example.com" } }).currentStep = 9 ∧
    (sendingOnMount2 tsZero (.error ⟨some "boom"⟩)
        { preSendingStore with authData :=
            { preSendingStore.authData with email := "user@example.com" } }).1.currentStep
      = 10 :=
  ⟨(c5_amended tsZero
      { preSendingStore with authData :=
          { preSendingStore.authData with email := "user@example.com" } }
      ⟨some "boom"⟩ (by decide)).1,
   (c5_amended tsZero
      { preSendingStore with authData :=
          { preSendingStore.authData with email := "user@example.com" } }
      ⟨some "boom"⟩ (by decide)).2.2.2.1⟩

/-- C6. The claim says reset restores every Session field — including
`sensorStatus` — to its initial pre-start value. After a full completed
session the readiness probe has set `sensorStatus.rtc` to `true`, and
`restart` (which only replaces `authData`, `otpData`, `logs` and
`currentStep`) leaves it `true`, while its initial value is `false`:
the restarted store is not the initial store. -/
theorem c6_counterexample :
    (restart fullSessionRun).sensorStatus.rtc = true ∧
    initialStore.sensorStatus.rtc = false ∧
    restart fullSessionRun ≠ initialStore := by
  refine ⟨rfl, rfl, fun hcontra => ?_⟩
  exact absurd (congrArg (fun s => s.sensorStatus.rtc) hcontra) (by decide)

/-- C6 (amended). `restart` resets `currentStep` to 0 and restores
`authData`, `otpData` and `logBuffer` to their initial empty values,
but `sensorStatus` is not part of the reset: it keeps whatever the last
readiness probe wrote, for every starting store. -/
theorem c6_amended (st : StoreState) :
    restart st = { initialStore with sensorStatus := st.sensorStatus } ∧
    (restart st).currentStep = 0 ∧
    (restart st).authData = initialAuthData ∧
    (restart st).otpData = initialOtpData ∧
    (restart st).logs = [] ∧
    (restart st).sensorStatus = st.sensorStatus := by
  exact ⟨rfl, rfl, rfl, rfl, rfl, rfl⟩

/-- C7. `startSession` with a non-blank user id: a thrown start call
leaves the whole store (in particular `currentStep` and
`authData.logId`) unchanged and surfaces the collaborator detail or the
generic retryable message with the action re-enabled; a successful call
stores the returned `logId`, records the user id, and advances
`currentStep` to 1, the Checklist / Readiness Gate step. -/
theorem c7_start_session (userId : String) (e : AxiosError) (r : StartResp)
    (st : StoreState) (h : jsTrim userId ≠ "") :
    (startSession userId (.error e) st).1 = st ∧
    (startSession userId (.error e) st).1.authData.logId = st.authData.logId ∧
    (startSession userId (.error e) st).2.status = "error" ∧
    (startSession userId (.error e) st).2.errorMessage
        = jsOrStr e.detailField "Failed to start verification" ∧
    (startSession userId (.ok r) st).1.authData.logId = some r.logId ∧
    (startSession userId (.ok r) st).1.authData.userId = userId ∧
    (startSession userId (.ok r) st).1.currentStep = 1 := by
  simp [startSession, h]

/-- C7 witness: `startSession` evaluated at user id `"alice"` against
the initial store, for both a transport failure and a successful
response. -/
theorem c7_start_session_witness :
    (startSession "alice" (.error .network) initialStore).1 = initialStore ∧
    (startSession "alice" (.ok ⟨"log-7"⟩) initialStore).1.authData.logId
        = some "log-7" ∧
    (startSession "alice" (.ok ⟨"log-7"⟩) initialStore).1.currentStep = 1 :=
  ⟨(c7_start_session "alice" .network ⟨"log-7"⟩ initialStore (by decide)).1,
   (c7_start_session "alice" .network ⟨"log-7"⟩ initialStore (by decide)).2.2.2.2.1,
   (c7_start_session "alice" .network ⟨"log-7"⟩ initialStore (by decide)).2.2.2.2.2.2⟩

/-- C8. Factor record fields are only ever written by the successful
action of their own step: a thrown fingerprint scan, face verify, GPS
poll, signature verify (with a live session id) or quiz submit leaves
the store — hence the corresponding record field — completely
unchanged (no sentinel error value is ever stored), and the setup
handlers (`loadOTPQuestion`, `checklistOnMount`) never touch `authData`
regardless of their outcome. -/
theorem c8_record_unset_until_success (st : StoreState) (e : AxiosError)
    (fs : FingerprintState) (cs : CameraState) (gs : GpsState)
    (qs : QuizState) (img : String)
    (r : Except Unit OtpFetchResp) (r2 : Except Unit SensorsStatusResp)
    (h : jsTruthy st.authData.logId = true) :
    (scanAndVerify (.error e) st fs).1 = st ∧
    (cameraVerify (.error e) st cs).1 = st ∧
    (pollGPS (.error ()) st gs).1 = st ∧
    (handleSave img (.error e) st).1 = st ∧
    (submitAnswer (.error ()) st qs).1 = st ∧
    (loadOTPQuestion r st qs).1.authData = st.authData ∧
    (checklistOnMount r2 st).1.authData = st.authData := by
  refine ⟨rfl, rfl, rfl, ?_, ?_, ?_, ?_⟩
  · simp [handleSave, h]
  · cases hsel : qs.selected <;> simp [submitAnswer, hsel]
  · cases r <;> rfl
  · cases r2 <;> rfl

/-- C8 witness: the store of a started session (live session id) is
unchanged by a thrown call in each factor step. -/
theorem c8_record_unset_until_success_witness :
    (scanAndVerify (.error .network)
        (startSession "alice" (.ok ⟨"log-7"⟩) initialStore).1
        ⟨"idle", "Place your finger on the sensor"⟩).1
      = (startSession "alice" (.ok ⟨"log-7"⟩) initialStore).1 ∧
    (handleSave "sig-png" (.error .network)
        (startSession "alice" (.ok ⟨"log-7"⟩) initialStore).1).1
      = (startSession "alice" (.ok ⟨"log-7"⟩) initialStore).1 :=
  ⟨(c8_record_unset_until_success
      (startSession "alice" (.ok ⟨"log-7"⟩) initialStore).1 .network
      ⟨"idle", "Place your finger on the sensor"⟩
      ⟨"idle", "", none⟩ ⟨"idle", "", none⟩ ⟨"ready", "", none⟩
      "sig-png" (.error ()) (.error ()) (by decide)).1,
   (c8_record_unset_until_success
      (startSession "alice" (.ok ⟨"log-7"⟩) initialStore).1 .network
      ⟨"idle", "Place your finger on the sensor"⟩
      ⟨"idle", "", none⟩ ⟨"idle", "", none⟩ ⟨"ready", "", none⟩
      "sig-png" (.error ()) (.error ()) (by decide)).2.2.2.1⟩

/-- C9. The claim says an unreachable sensor-status collaborator leaves
all `sensorStatus` flags false. The catch branch of the Checklist
`onMount` does not write `sensorStatus` at all, so stale flags survive:
after a completed session and a restart (which does not reset
`sensorStatus`), a readiness probe whose fetch throws leaves
`sensorStatus.rtc` equal to `true`, not `false`. -/
theorem c9_counterexample :
    (checklistOnMount (.error ())
        (restart (checklistOnMount (.ok ⟨true, true, true, true, true⟩)
          initialStore).1)).1.sensorStatus.rtc = true ∧
    (checklistOnMount (.error ())
        (restart (checklistOnMount (.ok ⟨true, true, true, true, true⟩)
          initialStore).1)).2.hasFailed = true := by
  exact ⟨rfl, rfl⟩

/-- C9 (amended). On transport failure the Checklist catch leaves the
store — in particular every `sensorStatus` flag — exactly as it was
(all flags are false only when the store still holds its initial
values, e.g. on the first session), surfaces the explicit connectivity
error, and forces `hasFailed = true`, so the continue transition is
disabled and the gate outcome is not-ready either way. -/
theorem c9_amended (st : StoreState) :
    (checklistOnMount (.error ()) st).1 = st ∧
    (checklistOnMount (.error ()) st).2.error
        = some "Failed to connect to sensors. Ensure backend is running." ∧
    (checklistOnMount (.error ()) st).2.hasFailed = true ∧
    continueDisabled (checklistOnMount (.error ()) st).2 = true ∧
    (checklistOnMount (.error ()) initialStore).1.sensorStatus
        = initialSensorStatus := by
  exact ⟨rfl, rfl, rfl, rfl, rfl⟩

/-- C10. In the consent+signature route, saving a signature with a null
session id does not fail: the handler detects the falsy id, issues no
verification request, stores the raw signature image into
`record.signature`, and reports success in test mode — no precondition
error is raised. -/
theorem c10_signature_test_mode (img : String)
    (resp : Except AxiosError SignatureResp) (st : StoreState)
    (h : st.authData.logId = none) :
    (handleSave img resp st).2.2 = [] ∧
    (handleSave img resp st).1.authData.signature = .str img ∧
    (handleSave img resp st).2.1.status = "success" ∧
    (handleSave img resp st).2.1.message = "서명이 저장되었습니다! (테스트 모드)" := by
  simp [handleSave, jsTruthy, h]

/-- C10 witness: saving against the initial store (no session started,
`logId = null`) with an image. -/
theorem c10_signature_test_mode_witness :
    (handleSave "sig-png" (.error .network) initialStore).2.2 = [] ∧
    (handleSave "sig-png" (.error .network) initialStore).1.authData.signature
        = .str "sig-png" :=
  ⟨(c10_signature_test_mode "sig-png" (.error .network) initialStore rfl).1,
   (c10_signature_test_mode "sig-png" (.error .network) initialStore rfl).2.1⟩

end AuthBox
